import Mathlib

/-!
Verification development for the OnlineVPN rewriting reverse proxy
(`app.py` / `config.py`).

Strings are modelled as `List Char` (named `Str`).  The Python regular
expressions used by the rewrite engine are embedded as deterministic
matchers: each of the four patterns used by `app.py` is simple enough
that Python's backtracking semantics collapse to a deterministic
left-to-right scan (this is argued in a comment next to each matcher).
`re.sub` is embedded as `reSub`, a leftmost, non-overlapping scan.

Python's duplicate top-level definitions are resolved the way CPython
would: the *last* definition of a name wins.  The file embeds the
effective (final) definitions of `replace_absolute_urls`,
`replace_protocol_relative`, `remove_scheme` and friends.  (The earlier,
shadowed variants at `app.py` lines 84-121 -- one of which contains an
unterminated string literal at line 95 -- are dead code and are not
embedded.)

`urllib.parse.urlparse` is embedded only for the fields the code uses
(`scheme`, `netloc`, `path`, `query`, `hostname`), faithful for URLs
with an ASCII scheme and authority component.  Python's `str.lower`,
`\w` and whitespace classes are modelled on their ASCII fragments; all
inputs appearing in theorems below are ASCII.
-/

namespace OnlineVPN

abbrev Str := List Char

/-! ## Character classes -/

/-- ASCII fragment of Python's `\w` class (letters, digits, underscore). -/
def isWordChar (c : Char) : Bool :=
  c.isAlphanum || c = '_'

/-- The regex class `[\w\-]` used for the optional subdomain label. -/
def isWordHyphen (c : Char) : Bool :=
  isWordChar c || c = '-'

/-- ASCII fragment of the regex class `\s`. -/
def isSpaceChar (c : Char) : Bool :=
  c = ' ' || c = '\t' || c = '\n' || c = '\r' || c = '\x0b' || c = '\x0c'

/-- The regex class `[^\s"\'<>]` for the path tail of an absolute URL. -/
def isUrlTailChar (c : Char) : Bool :=
  !(isSpaceChar c) && c != '"' && c != '\'' && c != '<' && c != '>'

/-- The regex class `[^"\'>]` used in the relative-URL patterns. -/
def isRelTailChar (c : Char) : Bool :=
  c != '"' && c != '\'' && c != '>'

/-- Python `str.lower` (ASCII fragment). -/
def lowerStr (s : Str) : Str :=
  s.map Char.toLower

/-- Python `str.strip()` on ASCII whitespace. -/
def pyStrip (s : Str) : Str :=
  ((s.dropWhile isSpaceChar).reverse.dropWhile isSpaceChar).reverse

/-! ## Configuration constants (`config.py`) -/

/-- `config.PROXY_DOMAIN`. -/
def PROXY_DOMAIN : Str := "proxy.maxbase.ir".toList

/-- `config.PROXY_ROUTE_PREFIX` (the constant is `"/_/"`; the name carries a
`CFG` suffix for technical reasons, the value is exactly the source's). -/
def PROXY_ROUTE_PREFIX_CFG : Str := "/_/".toList

/-- `config.PROCESSABLE_CONTENT_TYPES`. -/
def PROCESSABLE_CONTENT_TYPES : List Str :=
  ["text/".toList, "application/javascript".toList,
   "application/json".toList, "application/xml".toList]

/-! ## `urllib.parse.urlparse` subset -/

/-- Characters allowed in a URL scheme after the first (alphabetic) one. -/
def isSchemeChar (c : Char) : Bool :=
  c.isAlphanum || c = '+' || c = '-' || c = '.'

/-- Split `scheme:rest` when the prefix before the first `:` is a valid
scheme, following `urllib.parse.urlsplit`. -/
def splitScheme (u : Str) : Option (Str × Str) :=
  let before := u.takeWhile (fun c => c != ':')
  match u.dropWhile (fun c => c != ':') with
  | ':' :: rest =>
    match before with
    | [] => none
    | c :: _ => if c.isAlpha && before.all isSchemeChar then some (before, rest) else none
  | _ => none

/-- The URL with a valid `scheme:` stripped, else the URL itself. -/
def urlAfterScheme (u : Str) : Str :=
  match splitScheme u with
  | some (_, rest) => rest
  | none => u

/-- `urlparse(u).scheme` (lower-cased, empty when absent). -/
def urlScheme (u : Str) : Str :=
  match splitScheme u with
  | some (sc, _) => lowerStr sc
  | none => []

/-- A character ending the netloc component. -/
def isNetlocEnd (c : Char) : Bool :=
  c = '/' || c = '?' || c = '#'

/-- `urlparse(u).netloc` (empty when the URL has no `//` authority). -/
def urlNetloc (u : Str) : Str :=
  let rest := urlAfterScheme u
  if ("//".toList).isPrefixOf rest then
    (rest.drop 2).takeWhile (fun c => !(isNetlocEnd c))
  else []

/-- The part of the URL after the netloc (path, query and fragment). -/
def urlPathQF (u : Str) : Str :=
  let rest := urlAfterScheme u
  if ("//".toList).isPrefixOf rest then
    (rest.drop 2).dropWhile (fun c => !(isNetlocEnd c))
  else rest

/-- `urlparse(u).path`. -/
def urlPath (u : Str) : Str :=
  (urlPathQF u).takeWhile (fun c => c != '?' && c != '#')

/-- `urlparse(u).query`. -/
def urlQuery (u : Str) : Str :=
  match ((urlPathQF u).takeWhile (fun c => c != '#')).dropWhile (fun c => c != '?') with
  | _ :: t => t
  | [] => []

/-- `urlparse(u).hostname` computed from a netloc: text after the last `@`,
then the bracketed host if any, else the text before `:`; lower-cased
(empty result stands for Python's `None`). -/
def hostnameOfNetloc (n : Str) : Str :=
  let hostinfo := (n.reverse.takeWhile (fun c => c != '@')).reverse
  let h :=
    if hostinfo.any (fun c => c = '[') then
      ((hostinfo.dropWhile (fun c => c != '[')).drop 1).takeWhile (fun c => c != ']')
    else hostinfo.takeWhile (fun c => c != ':')
  lowerStr h

/-- `urlparse(u).hostname` (empty for Python's `None`). -/
def urlHostname (u : Str) : Str :=
  hostnameOfNetloc (urlNetloc u)

/-! ## `re.sub` driver

All four patterns generated by `app.py` have a minimal match length of at
least two characters, so `re.sub`'s zero-width-match rule never fires and
substitution is a plain leftmost, non-overlapping scan.  A matcher returns
`(replacement, matchLength)`; the fuel argument equals the remaining
length, which suffices because every step consumes at least one
character. -/

def reSubFuel (m : Str → Option (Str × Nat)) : Nat → Str → Str
  | 0, s => s
  | _ + 1, [] => []
  | n + 1, c :: cs =>
    match m (c :: cs) with
    | some (repl, k) => repl ++ reSubFuel m n (List.drop (k - 1) cs)
    | none => c :: reSubFuel m n cs

/-- `re.sub pattern repl s`, for the matchers of this file. -/
def reSub (m : Str → Option (Str × Nat)) (s : Str) : Str :=
  reSubFuel m s.length s

/-! ## Rewrite engine (`app.py` lines 71-196, effective definitions) -/

/-- `get_proxy_base` (`app.py` line 185). -/
def get_proxy_base : Str :=
  "https://".toList ++ PROXY_DOMAIN

/-- `get_proxy_domain_base` (`app.py` line 71). -/
def get_proxy_domain_base (domain : Str) : Str :=
  "https://".toList ++ PROXY_DOMAIN ++ PROXY_ROUTE_PREFIX_CFG ++ domain

/-- `is_main_base_domain` (`app.py` line 75). -/
def is_main_base_domain (domain : Str) (base_url : Str) : Bool :=
  lowerStr domain == lowerStr (urlNetloc base_url)

/-- `remove_scheme` (`app.py` line 144, the effective definition). -/
def remove_scheme (url : Str) : Str :=
  "//".toList ++ urlNetloc url ++ urlPath url

/-- Matcher for the regex fragment `(?:[\w\-]+\.)?D` at the head of `s`
(`D` is the regex-escaped literal domain).  Python's backtracking is
deterministic here: `[\w\-]+` cannot contain `.`, so the greedy
alternative with the subdomain label succeeds exactly when the maximal
`[\w\-]` run is non-empty, is followed by `.`, and `D` matches after it;
otherwise the engine retries without the optional group, i.e. `D` must
match directly.  Returns the number of characters consumed. -/
def matchSubDomain (D : Str) (s : Str) : Option Nat :=
  let run := (s.takeWhile isWordHyphen).length
  if 1 ≤ run && ('.' :: D).isPrefixOf (s.drop run) then
    some (run + 1 + D.length)
  else if D.isPrefixOf s then
    some D.length
  else none

/-- Matcher for `https?://` at the head of `s` (greedy `s?`, deterministic
because the fallback `http://` needs `:` where the first alternative
found `s`). -/
def matchScheme (s : Str) : Option Nat :=
  if ("https://".toList).isPrefixOf s then some 8
  else if ("http://".toList).isPrefixOf s then some 7
  else none

/-- Matcher for the pattern of `replace_domain_in_content` (`app.py`
line 127): `(https?://(?:[\w\-]+\.)?D)(/[^\s"\'<>]*)?` with the
replacement function of lines 128-132.  Group 2, when present, is `/`
followed by the maximal run of `[^\s"\'<>]`. -/
def absMatcher (domain base_url : Str) (s : Str) : Option (Str × Nat) :=
  match matchScheme s with
  | none => none
  | some k =>
    match matchSubDomain domain (s.drop k) with
    | none => none
    | some m =>
      let tail :=
        match s.drop (k + m) with
        | '/' :: r => '/' :: r.takeWhile isUrlTailChar
        | _ => []
      let repl :=
        (if is_main_base_domain domain base_url then get_proxy_base
         else get_proxy_domain_base domain) ++ tail
      some (repl, k + m + tail.length)

/-- `replace_domain_in_content` (`app.py` line 124). -/
def replace_domain_in_content (content : Str) (domain : Str) (base_url : Str) : Str :=
  reSub (absMatcher domain base_url) content

/-- `replace_absolute_urls` (`app.py` line 135, the effective definition;
its third parameter is named `proxy_base` in the source but is fed to
`replace_domain_in_content`'s `base_url` parameter). -/
def replace_absolute_urls (content : Str) (domains : List Str) (proxy_base : Str) : Str :=
  if domains = [] then content
  else domains.foldl (fun acc domain => replace_domain_in_content acc domain proxy_base) content

/-- Matcher for the pattern of `replace_protocol_rel_domain` (`app.py`
line 153): `//(?:[\w\-]+\.)?D`, replaced by the literal string
`remove_scheme(proxy_base)` (which contains no `\` escapes for the URLs
at hand, so template expansion is the identity). -/
def protoRelMatcher (domain proxy_base : Str) (s : Str) : Option (Str × Nat) :=
  match s with
  | '/' :: '/' :: r => (matchSubDomain domain r).map (fun m => (remove_scheme proxy_base, m + 2))
  | _ => none

/-- `replace_protocol_rel_domain` (`app.py` line 150). -/
def replace_protocol_rel_domain (content : Str) (domain : Str) (proxy_base : Str) : Str :=
  reSub (protoRelMatcher domain proxy_base) content

/-- `replace_protocol_relative` (`app.py` line 157, the effective
definition). -/
def replace_protocol_relative (content : Str) (domains : List Str) (proxy_base : Str) : Str :=
  if domains = [] then content
  else domains.foldl (fun acc domain => replace_protocol_rel_domain acc domain proxy_base) content

/-- The attribute-and-quote group `((?:href|src|action)=["\'])` shared by
the two relative-URL patterns.  The alternation is over literals with
distinct first characters, so it is deterministic; alternatives are
tried in source order.  Returns group 1. -/
def matchAttrQuote (s : Str) : Option Str :=
  ["href".toList, "src".toList, "action".toList].findSome? fun a =>
    let pre := a ++ ['=']
    if pre.isPrefixOf s then
      match s.drop pre.length with
      | '"' :: _ => some (pre ++ ['"'])
      | '\'' :: _ => some (pre ++ ['\''])
      | _ => none
    else none

/-- Matcher for the pattern of `replace_slash_paths` (`app.py` line 168):
`((?:href|src|action)=["\'])(/(?!/)[^"\'>]+)` with replacement template
`\1proxy_base\2`. -/
def slashMatcher (proxy_base : Str) (s : Str) : Option (Str × Nat) :=
  match matchAttrQuote s with
  | none => none
  | some g1 =>
    match s.drop g1.length with
    | '/' :: r =>
      match r with
      | '/' :: _ => none
      | _ =>
        let run := r.takeWhile isRelTailChar
        if 1 ≤ run.length then
          some (g1 ++ proxy_base ++ '/' :: run, g1.length + 1 + run.length)
        else none
    | _ => none

/-- `replace_slash_paths` (`app.py` line 166). -/
def replace_slash_paths (content : Str) (proxy_base : Str) : Str :=
  reSub (slashMatcher proxy_base) content

/-- Matcher for the pattern of `replace_dot_paths` (`app.py` line 174):
`((?:href|src|action)=["\'])\.\/([^"\'>]+)` with replacement template
`\1proxy_base/\2`. -/
def dotMatcher (proxy_base : Str) (s : Str) : Option (Str × Nat) :=
  match matchAttrQuote s with
  | none => none
  | some g1 =>
    match s.drop g1.length with
    | '.' :: '/' :: r =>
      let run := r.takeWhile isRelTailChar
      if 1 ≤ run.length then
        some (g1 ++ proxy_base ++ '/' :: run, g1.length + 2 + run.length)
      else none
    | _ => none

/-- `replace_dot_paths` (`app.py` line 172). -/
def replace_dot_paths (content : Str) (proxy_base : Str) : Str :=
  reSub (dotMatcher proxy_base) content

/-- `replace_relative_urls` (`app.py` line 178).  The `base_url`
parameter is present in the source but unused there. -/
def replace_relative_urls (content : Str) (base_url : Str) (proxy_base : Str) : Str :=
  replace_dot_paths (replace_slash_paths content proxy_base) proxy_base

/-- `rewrite_content` (`app.py` line 190).  Note the source passes
`base_url` -- not the proxy base -- as the third argument of both
`replace_protocol_relative` and `replace_absolute_urls`. -/
def rewrite_content (content : Str) (base_url : Str) (domains : List Str) : Str :=
  let proxy_base := get_proxy_base
  let content := replace_relative_urls content base_url proxy_base
  let content := replace_protocol_relative content domains base_url
  replace_absolute_urls content domains base_url

/-! ## SSRF protection (`app.py` lines 31-63)

`socket.gethostbyname` performs IPv4 resolution only (it raises for an
IPv6 literal such as `::1`); its result string always parses as an
`IPv4Address`.  DNS is external, so resolution is a parameter: a
`Resolver` maps a hostname to `some` 32-bit IPv4 value, or `none` when
`gethostbyname` raises.  `ipaddress`'s `address in network` returns
`False` on an IP-version mismatch, which `netContains` mirrors. -/

inductive IpAddr
  | v4 (n : Nat)
  | v6 (n : Nat)
deriving DecidableEq

/-- Dotted-quad IPv4 value. -/
def v4Nat (a b c d : Nat) : Nat :=
  ((a * 256 + b) * 256 + c) * 256 + d

structure IpNetwork where
  addr : IpAddr
  prefixLen : Nat
deriving DecidableEq

/-- `ipaddress` membership: equality of the network-prefix bits, false on
version mismatch. -/
def netContains (net : IpNetwork) (ip : IpAddr) : Bool :=
  match net.addr, ip with
  | .v4 b, .v4 a => a / 2 ^ (32 - net.prefixLen) == b / 2 ^ (32 - net.prefixLen)
  | .v6 b, .v6 a => a / 2 ^ (128 - net.prefixLen) == b / 2 ^ (128 - net.prefixLen)
  | _, _ => false

/-- `BLOCKED_IP_RANGES` (`app.py` line 31). -/
def BLOCKED_IP_RANGES : List IpNetwork :=
  [⟨.v4 (v4Nat 10 0 0 0), 8⟩,
   ⟨.v4 (v4Nat 172 16 0 0), 12⟩,
   ⟨.v4 (v4Nat 192 168 0 0), 16⟩,
   ⟨.v4 (v4Nat 127 0 0 0), 8⟩,
   ⟨.v4 (v4Nat 169 254 0 0), 16⟩,
   ⟨.v6 1, 128⟩,
   ⟨.v6 (0xfc00 * 2 ^ 112), 7⟩,
   ⟨.v6 (0xfe80 * 2 ^ 112), 10⟩]

/-- External DNS: `some` = the IPv4 address `gethostbyname` returned,
`none` = the lookup raised. -/
def Resolver := Str → Option Nat

/-- `is_ip_blocked` (`app.py` line 51). -/
def is_ip_blocked (ip : IpAddr) : Bool :=
  BLOCKED_IP_RANGES.any (fun net => netContains net ip)

/-- `get_ip_from_url` (`app.py` line 43): `None` when the URL has no
hostname, else the resolver's answer. -/
def get_ip_from_url (resolve : Resolver) (url : Str) : Option Nat :=
  let h := urlHostname url
  if h = [] then none else resolve h

/-- `is_safe_url` (`app.py` line 57).  Python returns the falsy `None`
when the URL has no hostname and `False` when resolution raises; both
are modelled as `false`. -/
def is_safe_url (resolve : Resolver) (url : Str) : Bool :=
  match get_ip_from_url resolve url with
  | none => false
  | some n => !(is_ip_blocked (.v4 n))

/-! ## Forwarding core, response construction (`app.py` lines 231-259)

Only the response-construction half is embedded (the claims bear on it);
the outbound `requests.request` call is external I/O.  A Flask
`Response` is modelled by the status, header list and body that the code
explicitly sets. -/

structure UpstreamResponse where
  status : Nat
  headers : List (Str × Str)
  body : Str

structure ClientResponse where
  status : Nat
  headers : List (Str × Str)
  body : Str

/-- Python's substring test `needle in hay`. -/
def strContains (hay needle : Str) : Bool :=
  (List.range (hay.length + 1)).any (fun i => needle.isPrefixOf (hay.drop i))

/-- `requests`' case-insensitive `headers.get(k, '')`. -/
def getHeaderD (hs : List (Str × Str)) (k : Str) : Str :=
  match hs.find? (fun p => lowerStr p.1 == lowerStr k) with
  | some p => p.2
  | none => []

/-- `should_process_content` (`app.py` line 231): substring test against
the processable content types. -/
def should_process_content (content_type : Str) : Bool :=
  PROCESSABLE_CONTENT_TYPES.any (fun ct => strContains (lowerStr content_type) ct)

/-- `create_text_response` (`app.py` line 236). -/
def create_text_response (u : UpstreamResponse) (base_url : Str) (domains : List Str) :
    ClientResponse :=
  { status := u.status
    headers := [("Content-Type".toList, getHeaderD u.headers "Content-Type".toList)]
    body := rewrite_content u.body base_url domains }

/-- `create_binary_response` (`app.py` line 245): the `Content-Type`
header is set only when the upstream declared a non-empty one. -/
def create_binary_response (u : UpstreamResponse) : ClientResponse :=
  { status := u.status
    headers :=
      if getHeaderD u.headers "Content-Type".toList = [] then []
      else [("Content-Type".toList, getHeaderD u.headers "Content-Type".toList)]
    body := u.body }

/-- `create_response` (`app.py` line 254). -/
def create_response (u : UpstreamResponse) (base_url : Str) (domains : List Str) :
    ClientResponse :=
  if should_process_content (lowerStr (getHeaderD u.headers "Content-Type".toList)) then
    create_text_response u base_url domains
  else create_binary_response u

/-! ## Route dispatcher (`app.py` lines 310-399)

`get_cookies`/`set_cookies` are absent from `src/`; the context values
they carry (`base_url`, `domains`) are passed explicitly.  The dispatch
decision of `handle_non_options_request` is embedded up to the forward
target it selects; the upstream fetch itself is external I/O. -/

/-- `parse_proxy_route`'s `rest.split('/', 1)`:  the text before the
first `/` and, when a `/` exists, the text after it. -/
def splitOnceSlash : Str → Str × Option Str
  | [] => ([], none)
  | c :: t =>
    if c = '/' then ([], some t)
    else
      let (a, b) := splitOnceSlash t
      (c :: a, b)

/-- `parse_proxy_route` (`app.py` line 321). -/
def parse_proxy_route (path : Str) (allowed_domains : List Str) : Option Str × Str :=
  let pfx := PROXY_ROUTE_PREFIX_CFG.dropWhile (fun c => c = '/')
  let tgt := '/' :: pfx
  if tgt.isPrefixOf path then
    let rest := path.drop tgt.length
    let (domain, after) := splitOnceSlash rest
    let subpath := match after with | some t => t | none => []
    if domain ∈ allowed_domains then (some domain, subpath)
    else (none, path.dropWhile (fun c => c = '/'))
  else (none, path.dropWhile (fun c => c = '/'))

/-- The decision `handle_non_options_request` reaches before any
network I/O: redirect to the setup form, or forward to a target base
with a sub-path. -/
inductive DispatchAction
  | toSetup
  | forward (target_base : Str) (path : Str)
deriving DecidableEq

/-- `handle_non_options_request` (`app.py` line 386), with the cookie
state passed explicitly.  `if domain:` is Python truthiness: both `None`
and the empty string fall through to the origin branch. -/
def handle_non_options_request (base_url : Str) (domains : List Str) (path : Str) :
    DispatchAction :=
  if base_url = [] then .toSetup
  else
    match parse_proxy_route ('/' :: path) domains with
    | (some d, subpath) =>
      if d = [] then .forward base_url path
      else .forward ("https://".toList ++ d) subpath
    | (none, _) => .forward base_url path

/-! ## Setup endpoint (`app.py` lines 265-298) -/

/-- `validate_url` (`app.py` line 265): `(valid, error-message)`, the
message being empty for Python's `None`. -/
def validate_url (resolve : Resolver) (target_url : Str) : Bool × Str :=
  if target_url = [] then (false, "Missing target URL".toList)
  else if ¬(urlScheme target_url = "http".toList ∨ urlScheme target_url = "https".toList)
          ∨ urlNetloc target_url = [] then
    (false, "Invalid URL".toList)
  else if is_safe_url resolve target_url then (true, [])
  else (false, "Blocked internal address".toList)

/-- Modelled from the spec: `get_path_from_url` is imported by
`test_new_logic.py` but missing from `src/app.py`.  Spec section 4.2:
`establish` "returns a redirect to the path component of `target_url`";
the repository's tests pin `/` for an empty path and keep the query
string. -/
def get_path_from_url (u : Str) : Str :=
  let p := urlPath u
  let p := if p = [] then ['/'] else p
  let q := urlQuery u
  if q = [] then p else p ++ '?' :: q

/-- Outcome of `handle_setup_post`: an error body with its HTTP status,
or a redirect. -/
inductive SetupResult
  | err (msg : Str) (code : Nat)
  | redirectTo (location : Str)
deriving DecidableEq

/-- `handle_setup_post` (`app.py` line 281), up to the cookie side
effect (`set_cookies` is absent from `src/`): the inputs are the
stripped form fields, the result the response decision.  The status of
an error is `400` exactly when the message contains `"Missing"`. -/
def handle_setup_post (resolve : Resolver) (target_url_raw : Str) : SetupResult :=
  if (validate_url resolve (pyStrip target_url_raw)).1 then
    .redirectTo (get_path_from_url (pyStrip target_url_raw))
  else
    .err (validate_url resolve (pyStrip target_url_raw)).2
      (if strContains (validate_url resolve (pyStrip target_url_raw)).2 "Missing".toList
       then 400 else 403)

/-! ## Helper lemmas: substitution is the identity where nothing matches -/

/-- Decides that a matcher matches at no position of `s`. -/
def noMatchB (m : Str → Option (Str × Nat)) (s : Str) : Bool :=
  (List.range (s.length + 1)).all (fun i => (m (s.drop i)).isNone)

theorem none_of_noMatchB {m : Str → Option (Str × Nat)} {s : Str}
    (h : noMatchB m s = true) : ∀ i, m (s.drop i) = none := by
  intro i
  have hall := List.all_eq_true.mp h
  rcases Nat.lt_or_ge i (s.length + 1) with hi | hi
  · have := hall i (List.mem_range.mpr hi)
    exact Option.isNone_iff_eq_none.mp (by simpa using this)
  · have h1 : s.drop i = [] := List.drop_eq_nil_of_le (by omega)
    have h2 : s.drop s.length = [] := List.drop_eq_nil_of_le (le_refl _)
    have := hall s.length (List.mem_range.mpr (by omega))
    rw [h1, ← h2]
    exact Option.isNone_iff_eq_none.mp (by simpa using this)

theorem reSubFuel_id (m : Str → Option (Str × Nat)) :
    ∀ (n : Nat) (s : Str), (∀ i, m (s.drop i) = none) → reSubFuel m n s = s
  | 0, _, _ => rfl
  | _ + 1, [], _ => rfl
  | n + 1, c :: cs, h => by
    have h0 : m (c :: cs) = none := by simpa using h 0
    simp only [reSubFuel, h0]
    exact congrArg (c :: ·) (reSubFuel_id m n cs (fun i => h (i + 1)))

theorem reSub_id {m : Str → Option (Str × Nat)} {s : Str}
    (h : noMatchB m s = true) : reSub m s = s :=
  reSubFuel_id m s.length s (none_of_noMatchB h)

theorem replace_domain_foldl_id (base : Str) :
    ∀ (ds : List Str) (c : Str), (∀ d ∈ ds, noMatchB (absMatcher d base) c = true) →
      ds.foldl (fun acc domain => replace_domain_in_content acc domain base) c = c
  | [], _, _ => rfl
  | d :: t, c, h => by
    have h1 : replace_domain_in_content c d base = c := reSub_id (h d (by simp))
    simp only [List.foldl_cons, h1]
    exact replace_domain_foldl_id base t c (fun x hx => h x (by simp [hx]))

theorem replace_absolute_urls_id {c base : Str} {ds : List Str}
    (h : ∀ d ∈ ds, noMatchB (absMatcher d base) c = true) :
    replace_absolute_urls c ds base = c := by
  unfold replace_absolute_urls
  split
  · rfl
  · exact replace_domain_foldl_id base ds c h

theorem replace_proto_foldl_id (base : Str) :
    ∀ (ds : List Str) (c : Str), (∀ d ∈ ds, noMatchB (protoRelMatcher d base) c = true) →
      ds.foldl (fun acc domain => replace_protocol_rel_domain acc domain base) c = c
  | [], _, _ => rfl
  | d :: t, c, h => by
    have h1 : replace_protocol_rel_domain c d base = c := reSub_id (h d (by simp))
    simp only [List.foldl_cons, h1]
    exact replace_proto_foldl_id base t c (fun x hx => h x (by simp [hx]))

theorem replace_protocol_relative_id {c base : Str} {ds : List Str}
    (h : ∀ d ∈ ds, noMatchB (protoRelMatcher d base) c = true) :
    replace_protocol_relative c ds base = c := by
  unfold replace_protocol_relative
  split
  · rfl
  · exact replace_proto_foldl_id base ds c h

theorem replace_relative_urls_id {c b pb : Str}
    (h1 : noMatchB (slashMatcher pb) c = true)
    (h2 : noMatchB (dotMatcher pb) c = true) :
    replace_relative_urls c b pb = c := by
  unfold replace_relative_urls replace_slash_paths replace_dot_paths
  rw [reSub_id h1, reSub_id h2]

/-- The rewrite engine returns the content unchanged when none of the
generated patterns matches anywhere in it. -/
theorem rewrite_content_id {c b : Str} {ds : List Str}
    (h1 : noMatchB (slashMatcher get_proxy_base) c = true)
    (h2 : noMatchB (dotMatcher get_proxy_base) c = true)
    (h3 : ∀ d ∈ ds, noMatchB (protoRelMatcher d b) c = true)
    (h4 : ∀ d ∈ ds, noMatchB (absMatcher d b) c = true) :
    rewrite_content c b ds = c := by
  show replace_absolute_urls
      (replace_protocol_relative (replace_relative_urls c b get_proxy_base) ds b) ds b = c
  rw [replace_relative_urls_id h1 h2, replace_protocol_relative_id h3,
    replace_absolute_urls_id h4]

/-! ## Helper lemmas: list scanning -/

theorem takeWhile_all_eq {p : Char → Bool} :
    ∀ {xs : Str}, (∀ x ∈ xs, p x = true) → xs.takeWhile p = xs
  | [], _ => rfl
  | x :: xs, h => by
    have hx : p x = true := h x (by simp)
    simp only [List.takeWhile_cons, hx, if_true]
    exact congrArg (x :: ·) (takeWhile_all_eq (fun y hy => h y (by simp [hy])))

theorem takeWhile_append_stop {p : Char → Bool} {y : Char} (hy : p y = false) :
    ∀ (xs ys : Str), (∀ x ∈ xs, p x = true) → (xs ++ y :: ys).takeWhile p = xs
  | [], ys, _ => by simp [List.takeWhile_cons, hy]
  | x :: xs, ys, h => by
    have hx : p x = true := h x (by simp)
    simp only [List.cons_append, List.takeWhile_cons, hx, if_true]
    exact congrArg (x :: ·) (takeWhile_append_stop hy xs ys (fun z hz => h z (by simp [hz])))

theorem dropWhile_append_stop {p : Char → Bool} {y : Char} (hy : p y = false) :
    ∀ (xs ys : Str), (∀ x ∈ xs, p x = true) → (xs ++ y :: ys).dropWhile p = y :: ys
  | [], ys, _ => by simp [List.dropWhile_cons, hy]
  | x :: xs, ys, h => by
    have hx : p x = true := h x (by simp)
    simp only [List.cons_append, List.dropWhile_cons, hx, if_true]
    exact dropWhile_append_stop hy xs ys (fun z hz => h z (by simp [hz]))

theorem splitOnceSlash_append {d : Str} (hd : ∀ c ∈ d, c ≠ '/') :
    ∀ sub : Str, splitOnceSlash (d ++ '/' :: sub) = (d, some sub) := by
  induction d with
  | nil => intro sub; simp [splitOnceSlash]
  | cons c t ih =>
    intro sub
    have hc : c ≠ '/' := hd c (by simp)
    have ht : ∀ x ∈ t, x ≠ '/' := fun x hx => hd x (by simp [hx])
    simp [List.cons_append, splitOnceSlash, if_neg hc, ih ht sub]

/-- On a path of the shape `/_/<domain>/<subpath>` with a slash-free
domain, `parse_proxy_route` either recognises the domain (when
whitelisted) or falls through. -/
theorem parse_proxy_route_eq (d sub : Str) (allowed : List Str) (hd : ∀ c ∈ d, c ≠ '/') :
    parse_proxy_route ('/' :: '_' :: '/' :: (d ++ '/' :: sub)) allowed =
      if d ∈ allowed then (some d, sub)
      else (none, ('/' :: '_' :: '/' :: (d ++ '/' :: sub)).dropWhile (fun c => c = '/')) := by
  have hpfx : PROXY_ROUTE_PREFIX_CFG.dropWhile (fun c => c = '/') = ['_', '/'] := by decide
  have hsplit := splitOnceSlash_append hd sub
  simp [parse_proxy_route, hpfx, hsplit, List.isPrefixOf]

/-! ## Helper lemmas: hostname extraction -/

/-- A hostname character free of every URL delimiter the parser splits
on. -/
def goodHostChar (c : Char) : Bool :=
  !(c = ':' || c = '/' || c = '?' || c = '#' || c = '@' || c = '[' || c = ']')

/-- A plain hostname: non-empty, delimiter-free, lower-case-stable. -/
def goodHost (h : Str) : Bool :=
  h != [] && h.all goodHostChar && (lowerStr h == h)

theorem goodHost_spec {h : Str} (hg : goodHost h = true) :
    h ≠ [] ∧ (∀ c ∈ h, goodHostChar c = true) ∧ lowerStr h = h := by
  simp only [goodHost, Bool.and_eq_true, bne_iff_ne, ne_eq, beq_iff_eq,
    List.all_eq_true] at hg
  exact ⟨hg.1.1, hg.1.2, hg.2⟩

theorem goodHostChar_iff (c : Char) :
    goodHostChar c = true ↔
      ¬c = ':' ∧ ¬c = '/' ∧ ¬c = '?' ∧ ¬c = '#' ∧ ¬c = '@' ∧ ¬c = '[' ∧ ¬c = ']' := by
  simp [goodHostChar, not_or, and_assoc]

theorem goodHostChar_netloc {c : Char} (h : goodHostChar c = true) :
    (!(isNetlocEnd c)) = true := by
  obtain ⟨_, h2, h3, h4, _⟩ := (goodHostChar_iff c).mp h
  simp [isNetlocEnd, h2, h3, h4]

theorem goodHostChar_ne (c x : Char) (h : goodHostChar c = true)
    (hx : x = ':' ∨ x = '/' ∨ x = '?' ∨ x = '#' ∨ x = '@' ∨ x = '[' ∨ x = ']') :
    (c != x) = true := by
  obtain ⟨n1, n2, n3, n4, n5, n6, n7⟩ := (goodHostChar_iff c).mp h
  rcases hx with rfl | rfl | rfl | rfl | rfl | rfl | rfl <;> simp [*]

theorem urlNetloc_http (host : Str) (hall : ∀ c ∈ host, goodHostChar c = true) :
    urlNetloc ('h' :: 't' :: 't' :: 'p' :: ':' :: '/' :: '/' :: (host ++ ['/'])) = host := by
  have hs : splitScheme ('h' :: 't' :: 't' :: 'p' :: ':' :: ('/' :: '/' :: (host ++ ['/'])))
      = some (['h', 't', 't', 'p'], '/' :: '/' :: (host ++ ['/'])) := rfl
  unfold urlNetloc urlAfterScheme
  rw [hs]
  have hpre : ("//".toList).isPrefixOf ('/' :: '/' :: (host ++ ['/'])) = true := by
    simp [List.isPrefixOf]
  rw [if_pos hpre]
  exact takeWhile_append_stop (by decide) host []
    (fun x hx => goodHostChar_netloc (hall x hx))

theorem hostnameOfNetloc_good (host : Str) (hall : ∀ c ∈ host, goodHostChar c = true)
    (hlow : lowerStr host = host) : hostnameOfNetloc host = host := by
  have h1 : host.reverse.takeWhile (fun c => c != '@') = host.reverse :=
    takeWhile_all_eq (fun x hx =>
      goodHostChar_ne x '@' (hall x (List.mem_reverse.mp hx)) (by simp))
  have h2 : host.any (fun c => c = '[') = false := by
    rw [← Bool.not_eq_true, List.any_eq_true]
    rintro ⟨x, hx, hxx⟩
    have hb := goodHostChar_ne x '[' (hall x hx) (by simp)
    simp only [decide_eq_true_eq] at hxx
    simp [hxx] at hb
  have h3 : host.takeWhile (fun c => c != ':') = host :=
    takeWhile_all_eq (fun x hx => goodHostChar_ne x ':' (hall x hx) (by simp))
  unfold hostnameOfNetloc
  simp only [h1, List.reverse_reverse, h2, Bool.false_eq_true, if_false, h3, hlow]

theorem urlHostname_http (host : Str) (hg : goodHost host = true) :
    urlHostname ('h' :: 't' :: 't' :: 'p' :: ':' :: '/' :: '/' :: (host ++ ['/'])) = host := by
  obtain ⟨_, hall, hlow⟩ := goodHost_spec hg
  unfold urlHostname
  rw [urlNetloc_http host hall, hostnameOfNetloc_good host hall hlow]

/-- `is_safe_url` through a computed hostname. -/
theorem is_safe_url_resolve {r : Resolver} {u h : Str} (hh : urlHostname u = h)
    (hne : h ≠ []) :
    is_safe_url r u
      = match r h with
        | none => false
        | some n => !(is_ip_blocked (.v4 n)) := by
  unfold is_safe_url get_ip_from_url
  rw [hh, if_neg hne]

/-- `is_safe_url` on `http://host/` reduces to the resolver's verdict on
`host`. -/
theorem is_safe_url_http (r : Resolver) (host : Str) (hg : goodHost host = true) :
    is_safe_url r ("http://".toList ++ host ++ ['/'])
      = match r host with
        | none => false
        | some n => !(is_ip_blocked (.v4 n)) := by
  obtain ⟨hne, _, _⟩ := goodHost_spec hg
  exact is_safe_url_resolve (urlHostname_http host hg) hne

/-! ## Claims -/

/-- C1: the claim that `rewrite_content` maps `https://d/path` to the
proxy locator for `d` -- in particular to the secondary sub-locator
`https://PROXY_DOMAIN/_/d` when `d` is not the bound origin -- fails on
the code.  With `allowed_domains = [cdn.example.com]` and bound origin
`example.com`, the content `https://cdn.example.com/path` is rewritten
to `https://example.com/path`: the protocol-relative pass (which
receives `base_url` where its parameter expects the proxy base) consumes
the `//cdn.example.com` inside the absolute URL first and replaces it
with the origin netloc, so the absolute pass never sees the secondary
domain and the sub-locator never appears in the output. -/
theorem claim_C1_code_eval :
    rewrite_content "https://cdn.example.com/path".toList "https://example.com".toList
      ["cdn.example.com".toList] = "https://example.com/path".toList
    ∧ strContains
        (rewrite_content "https://cdn.example.com/path".toList "https://example.com".toList
          ["cdn.example.com".toList])
        "/_/cdn.example.com".toList = false := by
  constructor
  · decide
  · decide

/-- C2: the spec scenario fails on the code.  For content
`<a href="//cdn.example.com/s.js">` with `allowed_domains =
[cdn.example.com]` and primary origin `example.com`, `rewrite_content`
produces `<a href="//example.com/s.js">`: the reference is redirected to
the *origin* netloc, not to the secondary-domain locator
`//proxy.maxbase.ir/_/cdn.example.com` (the `//` form itself is kept,
but the locator is wrong because `rewrite_content` passes `base_url`
into `replace_protocol_relative`'s `proxy_base` parameter, and
`replace_protocol_rel_domain` substitutes `remove_scheme(proxy_base)`
uniformly, never `get_proxy_domain_base`). -/
theorem claim_C2_code_eval :
    rewrite_content "<a href=\"//cdn.example.com/s.js\">".toList
      "https://example.com".toList ["cdn.example.com".toList]
      = "<a href=\"//example.com/s.js\">".toList := by
  decide

/-- C3: `is_safe_url` returns `false` for `http://127.0.0.1/`,
`http://169.254.169.254/` and `http://[::1]/` (the last because
`gethostbyname` is IPv4-only and raises on the IPv6 literal, the
fail-closed path); returns `true` for a URL whose hostname resolves to
an address outside the blocked ranges; returns `false` whenever
resolution fails; and the membership test is exactly over the eight
ranges of `BLOCKED_IP_RANGES`. -/
theorem claim_C3 (r : Resolver)
    (h1 : r "127.0.0.1".toList = some (v4Nat 127 0 0 1))
    (h2 : r "169.254.169.254".toList = some (v4Nat 169 254 169 254))
    (h3 : r "::1".toList = none) :
    is_safe_url r "http://127.0.0.1/".toList = false
    ∧ is_safe_url r "http://169.254.169.254/".toList = false
    ∧ is_safe_url r "http://[::1]/".toList = false
    ∧ (∀ host ip, goodHost host = true → r host = some ip →
        is_ip_blocked (.v4 ip) = false →
        is_safe_url r ("http://".toList ++ host ++ ['/']) = true)
    ∧ (∀ host, goodHost host = true → r host = none →
        is_safe_url r ("http://".toList ++ host ++ ['/']) = false)
    ∧ (∀ ip, is_ip_blocked ip = true ↔
        ∃ net ∈ BLOCKED_IP_RANGES, netContains net ip = true) := by
  refine ⟨?_, ?_, ?_, ?_, ?_, ?_⟩
  · have hh : urlHostname "http://127.0.0.1/".toList = "127.0.0.1".toList := by decide
    rw [is_safe_url_resolve hh (by decide), h1]
    decide
  · have hh : urlHostname "http://169.254.169.254/".toList = "169.254.169.254".toList := by
      decide
    rw [is_safe_url_resolve hh (by decide), h2]
    decide
  · have hh : urlHostname "http://[::1]/".toList = "::1".toList := by decide
    rw [is_safe_url_resolve hh (by decide), h3]
  · intro host ip hg hr hb
    rw [is_safe_url_http r host hg, hr]
    show (!(is_ip_blocked (.v4 ip))) = true
    rw [hb]
    rfl
  · intro host hg hr
    rw [is_safe_url_http r host hg, hr]
  · intro ip
    simp [is_ip_blocked, List.any_eq_true]

/-- A concrete resolver witnessing the hypotheses of the `is_safe_url`
theorem: loopback and link-local resolve to themselves, `example.org`
resolves to a public address, everything else fails. -/
def demoResolver : Resolver := fun h =>
  if h = "127.0.0.1".toList then some (v4Nat 127 0 0 1)
  else if h = "169.254.169.254".toList then some (v4Nat 169 254 169 254)
  else if h = "example.org".toList then some (v4Nat 93 184 216 34)
  else none

theorem claim_C3_witness :
    is_safe_url demoResolver "http://127.0.0.1/".toList = false
    ∧ is_safe_url demoResolver "http://169.254.169.254/".toList = false
    ∧ is_safe_url demoResolver "http://[::1]/".toList = false
    ∧ is_safe_url demoResolver ("http://".toList ++ "example.org".toList ++ ['/']) = true
    ∧ is_safe_url demoResolver ("http://".toList ++ "no-such-host.test".toList ++ ['/'])
        = false := by
  have h := claim_C3 demoResolver (by decide) (by decide) (by decide)
  exact ⟨h.1, h.2.1, h.2.2.1,
    h.2.2.2.1 "example.org".toList (v4Nat 93 184 216 34) (by decide) (by decide) (by decide),
    h.2.2.2.2.1 "no-such-host.test".toList (by decide) (by decide)⟩

/-- C4: the claim fails on the code.  In the Bound state, a path of the
secondary-domain shape `/_/<domain>/<subpath>` whose domain is *not*
whitelisted is not rejected as forbidden: `parse_proxy_route` returns
`(None, path)` and `handle_non_options_request` falls through to the
catch-all branch, forwarding the request upstream to the bound origin
with the original path. -/
theorem claim_C4_counterexample :
    handle_non_options_request "https://example.com".toList ["example.com".toList]
      "_/evil.com/secret".toList
      = .forward "https://example.com".toList "_/evil.com/secret".toList := by
  decide

/-- C4 (amended): for every bound origin and every slash-free domain `d`
outside `allowed_domains`, a request for `/_/d/<subpath>` is dispatched
as an ordinary catch-all request: it is forwarded to the bound
`base_url` with the original path (no forbidden rejection). -/
theorem claim_C4_amended (base : Str) (ds : List Str) (d sub : Str)
    (hb : base ≠ []) (hd : ∀ c ∈ d, c ≠ '/') (hmem : d ∉ ds) :
    handle_non_options_request base ds ('_' :: '/' :: (d ++ '/' :: sub))
      = .forward base ('_' :: '/' :: (d ++ '/' :: sub)) := by
  unfold handle_non_options_request
  rw [if_neg hb, parse_proxy_route_eq d sub ds hd, if_neg hmem]

theorem claim_C4_amended_witness :
    handle_non_options_request "https://a.com".toList ["a.com".toList]
      ('_' :: '/' :: ("b.org".toList ++ '/' :: "x".toList))
      = .forward "https://a.com".toList ('_' :: '/' :: ("b.org".toList ++ '/' :: "x".toList)) :=
  claim_C4_amended "https://a.com".toList ["a.com".toList] "b.org".toList "x".toList
    (by decide) (by decide) (by decide)

/-- C5: the claim that the document-relative rewrite fires only when the
bound origin's host is whitelisted fails on the code: with an empty
allowed-domain set and origin `google.com`, `href="/x"` is still
rewritten to the proxy base, because `rewrite_content` invokes
`replace_relative_urls` unconditionally and that function ignores its
`base_url` parameter (the repository's own test 9 in
`test_url_replacement.py` pins the claimed behaviour, for the older API
that is absent from `app.py`). -/
theorem claim_C5_code_eval :
    rewrite_content "<a href=\"/x\">".toList "https://google.com".toList []
      = "<a href=\"https://proxy.maxbase.ir/x\">".toList
    ∧ rewrite_content "<a href=\"/x\">".toList "https://google.com".toList []
        ≠ "<a href=\"/x\">".toList := by
  constructor
  · decide
  · decide

/-- C6: the claim fails on the code as stated: `x ∉ allowed_domains`
does not protect occurrences of `https://x/...`.  Here
`x = cdn.example.com` is not a member of `allowed_domains =
[example.com]`, yet its occurrence is rewritten (the generated patterns
deliberately match one subdomain label in front of a whitelisted
domain, and the protocol-relative pass then hands the result to the
absolute pass). -/
theorem claim_C6_counterexample :
    rewrite_content "https://cdn.example.com/p".toList "https://example.com".toList
      ["example.com".toList] = "https://proxy.maxbase.ir/p".toList
    ∧ "cdn.example.com".toList ∉ ["example.com".toList] := by
  constructor
  · decide
  · decide

/-- C6 (amended): an occurrence of a non-whitelisted URL is untouched
exactly when no generated pattern matches anywhere in the content: if,
at every position, the attribute patterns and -- for every whitelisted
domain -- the protocol-relative and absolute patterns all fail, then
`rewrite_content` returns the content byte-for-byte unchanged.  (Mere
non-membership is not enough: a single-label subdomain of a member, or a
hostname extending a member, is still rewritten.) -/
theorem claim_C6_amended (c b : Str) (ds : List Str)
    (h1 : noMatchB (slashMatcher get_proxy_base) c = true)
    (h2 : noMatchB (dotMatcher get_proxy_base) c = true)
    (h3 : ∀ d ∈ ds, noMatchB (protoRelMatcher d b) c = true)
    (h4 : ∀ d ∈ ds, noMatchB (absMatcher d b) c = true) :
    rewrite_content c b ds = c :=
  rewrite_content_id h1 h2 h3 h4

theorem claim_C6_amended_witness :
    rewrite_content "https://other.com/page".toList "https://youtube.com".toList
      ["youtube.com".toList] = "https://other.com/page".toList :=
  claim_C6_amended "https://other.com/page".toList "https://youtube.com".toList
    ["youtube.com".toList] (by decide) (by decide) (by decide) (by decide)

/-- C7: the claim fails on the code: the client-facing response does
*not* copy the other upstream headers.  For an upstream response
carrying `X-Custom: v` (alongside a textual content type), the response
built by `create_response` does not contain that header -- only
`Content-Type` survives. -/
theorem claim_C7_counterexample :
    ("X-Custom".toList, "v".toList) ∉
      (create_response
        ⟨200,
         [("Content-Type".toList, "text/html".toList),
          ("X-Custom".toList, "v".toList),
          ("Content-Length".toList, "5".toList),
          ("Content-Encoding".toList, "gzip".toList)],
         "hi".toList⟩
        "https://example.com".toList []).headers := by
  decide

/-- C7 (amended): every header of the response built by
`create_response` has the key `Content-Type`; in particular the upstream
`Content-Length` and `Content-Encoding` are dropped, but so is every
other upstream header (redirect `Location` and CORS headers are added by
separate later steps). -/
theorem claim_C7_amended (u : UpstreamResponse) (b : Str) (ds : List Str) (k v : Str)
    (h : (k, v) ∈ (create_response u b ds).headers) : k = "Content-Type".toList := by
  unfold create_response create_text_response create_binary_response at h
  split at h
  · simp only [List.mem_singleton, Prod.mk.injEq] at h
    exact h.1
  · split at h
    · simp at h
    · simp only [List.mem_singleton, Prod.mk.injEq] at h
      exact h.1

theorem claim_C7_amended_witness :
    ("Content-Type".toList : Str) = "Content-Type".toList :=
  claim_C7_amended
    ⟨200, [("Content-Type".toList, "text/html".toList)], "".toList⟩
    "https://example.com".toList [] "Content-Type".toList "text/html".toList
    (by decide)

/-- C8: the claim fails on the code: `rewrite_content` is not idempotent
for every content, base URL and domain list.  With `allowed_domains =
[example.com]` and bound origin `example.community`, the first rewrite
of `//cdn.example.com/x` yields `//example.community/x`, and a second
rewrite matches the whitelisted domain again as a *prefix* of
`example.community`, yielding `//example.communitymunity/x`. -/
theorem claim_C8_counterexample :
    rewrite_content
        (rewrite_content "//cdn.example.com/x".toList "https://example.community".toList
          ["example.com".toList])
        "https://example.community".toList ["example.com".toList]
      ≠ rewrite_content "//cdn.example.com/x".toList "https://example.community".toList
          ["example.com".toList] := by
  decide

/-- C8 (amended): `rewrite_content` is idempotent on the inputs the spec
intends -- those whose rewritten output admits no further pattern match
(all matched domains already mapped to proxy locators): if no generated
pattern matches anywhere in `rewrite_content c b ds`, then rewriting a
second time is the identity. -/
theorem claim_C8_amended (c b : Str) (ds : List Str)
    (h1 : noMatchB (slashMatcher get_proxy_base) (rewrite_content c b ds) = true)
    (h2 : noMatchB (dotMatcher get_proxy_base) (rewrite_content c b ds) = true)
    (h3 : ∀ d ∈ ds, noMatchB (protoRelMatcher d b) (rewrite_content c b ds) = true)
    (h4 : ∀ d ∈ ds, noMatchB (absMatcher d b) (rewrite_content c b ds) = true) :
    rewrite_content (rewrite_content c b ds) b ds = rewrite_content c b ds :=
  rewrite_content_id h1 h2 h3 h4

theorem claim_C8_amended_witness :
    rewrite_content
        (rewrite_content "https://example.com/p".toList "https://example.com".toList
          ["example.com".toList])
        "https://example.com".toList ["example.com".toList]
      = rewrite_content "https://example.com/p".toList "https://example.com".toList
          ["example.com".toList] :=
  claim_C8_amended "https://example.com/p".toList "https://example.com".toList
    ["example.com".toList] (by decide) (by decide) (by decide) (by decide)

/-- C9: the claim fails on the code: a malformed (non-missing) target
URL is rejected with status 403, not a 400-class `InvalidInput` status:
`handle_setup_post` derives the status from the error message and only
`"Missing..."` maps to 400. -/
theorem claim_C9_counterexample :
    handle_setup_post (fun _ => none) "ftp://example.com".toList
      = .err "Invalid URL".toList 403
    ∧ handle_setup_post (fun _ => none) "ftp://example.com".toList
        ≠ .err "Invalid URL".toList 400 := by
  constructor
  · decide
  · decide

/-- C9 (amended): at the setup endpoint, a missing target URL yields
`400`; a present but malformed one (scheme not http/https, or empty
netloc) yields `403`; a well-formed target blocked by the Safety Guard
yields `403`; and for missing or malformed targets the outcome is
independent of the resolver -- the Safety Guard is never consulted. -/
theorem claim_C9_amended :
    (∀ r : Resolver, handle_setup_post r [] = .err "Missing target URL".toList 400)
    ∧ (∀ (r : Resolver) (t : Str), pyStrip t ≠ [] →
        (¬(urlScheme (pyStrip t) = "http".toList ∨ urlScheme (pyStrip t) = "https".toList)
          ∨ urlNetloc (pyStrip t) = []) →
        handle_setup_post r t = .err "Invalid URL".toList 403)
    ∧ (∀ (r : Resolver) (t : Str), pyStrip t ≠ [] →
        (urlScheme (pyStrip t) = "http".toList ∨ urlScheme (pyStrip t) = "https".toList) →
        urlNetloc (pyStrip t) ≠ [] →
        is_safe_url r (pyStrip t) = false →
        handle_setup_post r t = .err "Blocked internal address".toList 403)
    ∧ (∀ (r rA : Resolver) (t : Str),
        (pyStrip t = []
          ∨ ¬(urlScheme (pyStrip t) = "http".toList
                ∨ urlScheme (pyStrip t) = "https".toList)
          ∨ urlNetloc (pyStrip t) = []) →
        handle_setup_post r t = handle_setup_post rA t) := by
  have vmiss : ∀ (r : Resolver) (u : Str), u = [] →
      validate_url r u = (false, "Missing target URL".toList) := by
    intro r u hu
    unfold validate_url
    rw [if_pos hu]
  have vinv : ∀ (r : Resolver) (u : Str), u ≠ [] →
      (¬(urlScheme u = "http".toList ∨ urlScheme u = "https".toList) ∨ urlNetloc u = []) →
      validate_url r u = (false, "Invalid URL".toList) := by
    intro r u hu hcond
    unfold validate_url
    rw [if_neg hu, if_pos hcond]
  have vblock : ∀ (r : Resolver) (u : Str), u ≠ [] →
      (urlScheme u = "http".toList ∨ urlScheme u = "https".toList) → urlNetloc u ≠ [] →
      is_safe_url r u = false →
      validate_url r u = (false, "Blocked internal address".toList) := by
    intro r u hu hsch hnet hsafe
    unfold validate_url
    rw [if_neg hu, if_neg (by push_neg; exact ⟨hsch, hnet⟩), hsafe]
    rfl
  have hmiss : ∀ (r : Resolver) (t : Str), pyStrip t = [] →
      handle_setup_post r t = .err "Missing target URL".toList 400 := by
    intro r t ht
    unfold handle_setup_post
    rw [vmiss r _ ht]
    rfl
  have hinv : ∀ (r : Resolver) (t : Str), pyStrip t ≠ [] →
      (¬(urlScheme (pyStrip t) = "http".toList ∨ urlScheme (pyStrip t) = "https".toList)
        ∨ urlNetloc (pyStrip t) = []) →
      handle_setup_post r t = .err "Invalid URL".toList 403 := by
    intro r t ht hcond
    unfold handle_setup_post
    rw [vinv r _ ht hcond]
    rfl
  refine ⟨fun r => hmiss r [] rfl, hinv, ?_, ?_⟩
  · intro r t ht hsch hnet hsafe
    unfold handle_setup_post
    rw [vblock r _ ht hsch hnet hsafe]
    rfl
  · intro r rA t h
    by_cases h0 : pyStrip t = []
    · rw [hmiss r t h0, hmiss rA t h0]
    · rcases h with h | hc
      · exact absurd h h0
      · rw [hinv r t h0 hc, hinv rA t h0 hc]

theorem claim_C9_amended_witness :
    handle_setup_post (fun _ => none) [] = .err "Missing target URL".toList 400
    ∧ handle_setup_post (fun _ => some 1) "gopher://a.com".toList
        = .err "Invalid URL".toList 403
    ∧ handle_setup_post demoResolver "http://127.0.0.1/".toList
        = .err "Blocked internal address".toList 403 := by
  have h := claim_C9_amended
  exact ⟨h.1 (fun _ => none),
    h.2.1 (fun _ => some 1) "gopher://a.com".toList (by decide) (by decide),
    h.2.2.1 demoResolver "http://127.0.0.1/".toList (by decide) (by decide) (by decide)
      (by decide)⟩

/-- C10: for every Bound request routed through the secondary-domain
shape `/_/<domain>/<subpath>` with a whitelisted (non-empty, slash-free)
domain, the dispatcher targets `https://<domain>` with the sub-path --
the scheme is always `https`, whatever the scheme of the bound
`base_url`. -/
theorem claim_C10 (base : Str) (ds : List Str) (d sub : Str)
    (hb : base ≠ []) (hd0 : d ≠ []) (hd : ∀ c ∈ d, c ≠ '/') (hmem : d ∈ ds) :
    handle_non_options_request base ds ('_' :: '/' :: (d ++ '/' :: sub))
      = .forward ("https://".toList ++ d) sub := by
  unfold handle_non_options_request
  rw [if_neg hb, parse_proxy_route_eq d sub ds hd, if_pos hmem]
  simp [hd0]

theorem claim_C10_witness :
    handle_non_options_request "http://origin.net".toList
      ["origin.net".toList, "cdn.net".toList]
      ('_' :: '/' :: ("cdn.net".toList ++ '/' :: "lib/a.js".toList))
      = .forward ("https://".toList ++ "cdn.net".toList) "lib/a.js".toList :=
  claim_C10 "http://origin.net".toList ["origin.net".toList, "cdn.net".toList]
    "cdn.net".toList "lib/a.js".toList (by decide) (by decide) (by decide) (by decide)

end OnlineVPN
